import Mathlib

/-!
Shallow embedding of the plate heat exchanger calculation engine
(files ntutools.py and plateheatexchanger.py) over the real numbers,
together with theorems settling the specification claims.

Python floats are modelled as real numbers; `math.exp`, `math.log10`,
`math.sqrt` and float powers become `Real.exp`, `Real.logb 10`,
`Real.sqrt` and `Real.rpow`.  A Python expression that raises
`ZeroDivisionError` (an exact-zero denominator, `96/0.0`, `0.0 ** -2`)
or a `math.log10` domain error is modelled as `Option.none`; all other
code is total.  `raise ValueError` is modelled as `none` as well.
-/

noncomputable section

namespace PHX

/-! ## ntutools.py -/

/-- Embedding of `_epsilon_counterflow` from ntutools.py:
effectiveness of a counter-flow heat exchanger. -/
def epsilon_counterflow (ntu c_rat : ℝ) : ℝ :=
  let epsilon :=
    if c_rat = 0 then 1 - Real.exp (-ntu)
    else
      let numerator := 1 - Real.exp (-ntu * (1 - c_rat))
      let denominator := 1 - c_rat * Real.exp (-ntu * (1 - c_rat))
      if denominator ≠ 0 then numerator / denominator else 0
  max 0 (min 1 epsilon)

/-- Embedding of `_epsilon_crossflow` from ntutools.py:
effectiveness of a cross-flow (unmixed/unmixed) heat exchanger.
The parameter `c_rat0` is the incoming capacity-rate ratio; the body
first replaces an exact zero by `1e-9` exactly as the source does. -/
def epsilon_crossflow (ntu c_rat0 : ℝ) : ℝ :=
  let c_rat := if c_rat0 = 0 then 1e-9 else c_rat0
  let term1 := (1 / c_rat) * ntu ^ (0.22 : ℝ)
  let term2 := Real.exp (-c_rat * ntu ^ (0.78 : ℝ))
  let epsilon := 1 - Real.exp (term1 * (term2 - 1))
  max 0 (min 1 epsilon)

/-- The performance record returned by `epsilon_ntu`, mirroring the
result dictionary of ntutools.py field by field (in source order). -/
structure ThermalResult where
  total_heat_transfer_w : ℝ
  ntu : ℝ
  effectiveness_epsilon : ℝ
  temp_hot_out_c : ℝ
  temp_cold_out_c : ℝ
  temp_effectiveness_hot_side : ℝ
  temp_effectiveness_cold_side : ℝ
  heat_capacity_rate_rat : ℝ

/-- Embedding of `epsilon_ntu` from ntutools.py.  The `raise ValueError`
for an unknown flow configuration is modelled as `none`; every other
path produces `some` result record. -/
def epsilon_ntu (hot_in_temperature_c cold_in_temperature_c
    hot_heatcapacity_rate cold_heatcapacity_rate ua_value : ℝ)
    (flow_configuration : String) : Option ThermalResult :=
  let c_min := min hot_heatcapacity_rate cold_heatcapacity_rate
  let c_max := max hot_heatcapacity_rate cold_heatcapacity_rate
  let c_rat := if c_max ≠ 0 then c_min / c_max else 0
  let ntu := if c_min ≠ 0 then ua_value / c_min else 0
  (if flow_configuration = "counter-flow" then some (epsilon_counterflow ntu c_rat)
   else if flow_configuration = "cross-flow" then some (epsilon_crossflow ntu c_rat)
   else none).map fun epsilon =>
    let q_max := c_min * (hot_in_temperature_c - cold_in_temperature_c)
    let q_actual := epsilon * q_max
    let hot_out_temperature_c := hot_in_temperature_c -
      (if hot_heatcapacity_rate ≠ 0 then q_actual / hot_heatcapacity_rate else 0)
    let cold_out_temperature_c := cold_in_temperature_c +
      (if cold_heatcapacity_rate ≠ 0 then q_actual / cold_heatcapacity_rate else 0)
    let temp_diff_in := hot_in_temperature_c - cold_in_temperature_c
    let temp_effectiveness_hot :=
      if temp_diff_in ≠ 0 then
        (hot_in_temperature_c - hot_out_temperature_c) / temp_diff_in
      else 0
    let temp_effectiveness_cold :=
      if temp_diff_in ≠ 0 then
        (cold_out_temperature_c - cold_in_temperature_c) / temp_diff_in
      else 0
    ⟨q_actual, ntu, epsilon, hot_out_temperature_c, cold_out_temperature_c,
     temp_effectiveness_hot, temp_effectiveness_cold, c_rat⟩

/-! Spec-side restatements of the two effectiveness correlations, written
from the words of the specification for comparison with the embedded code. -/

/-- Counter-flow effectiveness as worded in the specification: if Cr = 0
then 1 - exp(-NTU); otherwise (1-exp(-NTU(1-Cr))) / (1 - Cr exp(-NTU(1-Cr)))
with 0 substituted when that denominator is zero; the result clamped
to [0,1]. -/
def epsilon_counterflow_spec (ntu cr : ℝ) : ℝ :=
  let eps :=
    if cr = 0 then 1 - Real.exp (-ntu)
    else
      let d := 1 - cr * Real.exp (-(ntu * (1 - cr)))
      if d = 0 then 0 else (1 - Real.exp (-(ntu * (1 - cr)))) / d
  max 0 (min 1 eps)

/-- Cross-flow effectiveness as worded in the specification: first
replace Cr by 1e-9 when Cr = 0 exactly, then evaluate
1 - exp((1/Cr) NTU^0.22 (exp(-Cr NTU^0.78) - 1)), and clamp to [0,1]. -/
def epsilon_crossflow_spec (ntu cr0 : ℝ) : ℝ :=
  let cr := if cr0 = 0 then 1e-9 else cr0
  let eps := 1 - Real.exp ((1 / cr) * ntu ^ (0.22 : ℝ) *
    (Real.exp (-(cr * ntu ^ (0.78 : ℝ))) - 1))
  max 0 (min 1 eps)

/-! ## plateheatexchanger.py -/

/-- Gas constant of dry air (J/(kg K)), constant from plateheatexchanger.py. -/
def R_DRY_AIR : ℝ := 287.058

/-- Gas constant of water vapor (J/(kg K)). -/
def R_WATER_VAPOR : ℝ := 461.495

/-- Specific heat of dry air (J/(kg K)). -/
def CP_DRY_AIR : ℝ := 1006.0

/-- Specific heat of water vapor (J/(kg K)). -/
def CP_WATER_VAPOR : ℝ := 1860.0

/-- Latent heat of vaporization of water at 0 C (J/kg); defined but unused. -/
def LATENT_HEAT : ℝ := 2501000.0

/-- Embedding of `get_saturation_pressure_pa`: Arden Buck saturation
pressure for water vapor, two branches split at 0 C. -/
def get_saturation_pressure_pa (temp_c : ℝ) : ℝ :=
  if temp_c > 0 then
    611.21 * Real.exp ((18.678 - temp_c / 234.5) * (temp_c / (257.14 + temp_c)))
  else
    611.15 * Real.exp ((23.036 - temp_c / 333.7) * (temp_c / (279.82 + temp_c)))

/-- Embedding of `get_humidity_ratio` (kg water per kg dry air).  The
source divides by `pressure_pa - p_vapor` unguarded; Python raises
`ZeroDivisionError` exactly when that denominator is zero, modelled as
`none`; every other input silently yields a value. -/
def get_humidity_rat (temp_c pressure_pa relative_humidity : ℝ) : Option ℝ :=
  let p_sat := get_saturation_pressure_pa temp_c
  let p_vapor := relative_humidity * p_sat
  if pressure_pa - p_vapor = 0 then none
  else some (0.622 * p_vapor / (pressure_pa - p_vapor))

/-- Embedding of `get_air_viscosity`: Sutherland-type dynamic viscosity
of air at a given temperature. -/
def get_air_viscosity (temp_c : ℝ) : ℝ :=
  let T := temp_c + 273.15
  1.458e-6 * T ^ (1.5 : ℝ) / (T + 110.4)

/-- Embedding of `get_air_thermal_conductivity`: linear empirical fit. -/
def get_air_thermal_conductivity (temp_c : ℝ) : ℝ :=
  0.0241 + 6.8e-5 * temp_c

/-- Embedding of `get_air_density`: ideal-gas density of moist air. -/
def get_air_density (temp_c pressure_pa hum_rat : ℝ) : ℝ :=
  let T := temp_c + 273.15
  pressure_pa / (R_DRY_AIR * T * (1 + 0.608 * hum_rat))

/-- Embedding of `get_specific_heat`: specific heat of moist air. -/
def get_specific_heat (hum_rat : ℝ) : ℝ :=
  CP_DRY_AIR + hum_rat * CP_WATER_VAPOR

/-- Embedding of the dataclass `MoistAir` (stored fields only; the
derived properties are separate definitions below). -/
structure MoistAir where
  temperature_c : ℝ
  hum_rat : ℝ
  pressure_pa : ℝ

/-- The `density` property of `MoistAir`. -/
def MoistAir.density (m : MoistAir) : ℝ :=
  get_air_density m.temperature_c m.pressure_pa m.hum_rat

/-- The `dynamic_viscosity` property of `MoistAir`. -/
def MoistAir.dynamic_viscosity (m : MoistAir) : ℝ :=
  get_air_viscosity m.temperature_c

/-- The `thermal_conductivity` property of `MoistAir`. -/
def MoistAir.thermal_conductivity (m : MoistAir) : ℝ :=
  get_air_thermal_conductivity m.temperature_c

/-- The `specific_heat` property of `MoistAir`. -/
def MoistAir.specific_heat (m : MoistAir) : ℝ :=
  get_specific_heat m.hum_rat

/-- The `prandtl_number` property of `MoistAir`:
`(cp * mu) / k if k > 0 else 0.7`. -/
def MoistAir.prandtl_number (m : MoistAir) : ℝ :=
  let mu := m.dynamic_viscosity
  let cp := m.specific_heat
  let k := m.thermal_conductivity
  if k > 0 then cp * mu / k else 0.7

/-- Embedding of the dataclass `PlateHeatExchanger` (geometry and
material fields, in source order). -/
structure PlateHeatExchanger where
  plate_width : ℝ
  plate_height : ℝ
  gap_between_plates : ℝ
  number_of_plates : ℤ
  plate_thickness : ℝ
  plate_thermal_conductivity : ℝ
  surface_roughness : ℝ

/-- The exchanger with all fields at their source default values. -/
def defaultPHE : PlateHeatExchanger :=
  ⟨1.4, 1.4, 0.015, 50, 0.0005, 237.0, 1.5e-6⟩

/-- Derived geometry from `calculate_geometry`: channel count. -/
def PlateHeatExchanger.number_of_channels (p : PlateHeatExchanger) : ℤ :=
  p.number_of_plates - 1

/-- Derived geometry from `calculate_geometry`: flow area per channel. -/
def PlateHeatExchanger.flow_area_per_channel (p : PlateHeatExchanger) : ℝ :=
  p.gap_between_plates * p.plate_width

/-- Derived geometry from `calculate_geometry`: total heat-transfer area. -/
def PlateHeatExchanger.total_heat_transfer_area (p : PlateHeatExchanger) : ℝ :=
  ((p.number_of_plates : ℝ) - 2) * 2 * p.plate_width * p.plate_height

/-- Derived geometry from `calculate_geometry`: hydraulic diameter. -/
def PlateHeatExchanger.hydraulic_diameter (p : PlateHeatExchanger) : ℝ :=
  2 * p.gap_between_plates

/-- Embedding of `calculate_reynolds_number`.  Python raises
`ZeroDivisionError` when viscosity is zero (modelled as `none`). -/
def PlateHeatExchanger.calculate_reynolds_number (p : PlateHeatExchanger)
    (velocity density viscosity : ℝ) : Option ℝ :=
  if viscosity = 0 then none
  else some (density * velocity * p.hydraulic_diameter / viscosity)

/-- Embedding of `calculate_friction_factor`.  Laminar branch for
`re < 2300` is `96/re`, which raises `ZeroDivisionError` at re = 0
(modelled as `none`).  Turbulent branch is the Haaland correlation;
`math.log10` raises on a nonpositive argument and `0.0 ** -2` raises,
both modelled as `none`. -/
def PlateHeatExchanger.calculate_friction_factor (p : PlateHeatExchanger)
    (re : ℝ) : Option ℝ :=
  if re < 2300 then
    if re = 0 then none else some (96.0 / re)
  else
    let rel_roughness := p.surface_roughness / p.hydraulic_diameter
    let arg := (rel_roughness / 3.7) ^ (1.11 : ℝ) + 6.9 / re
    if arg ≤ 0 then none
    else
      let b := -1.8 * Real.logb 10 arg
      if b = 0 then none else some (b ^ (-2 : ℤ))

/-- Embedding of `calculate_nusselt_number`: constant 7.54 in the
laminar branch, Gnielinski correlation in the turbulent branch (which
is the only place the friction factor is consulted). -/
def PlateHeatExchanger.calculate_nusselt_number (p : PlateHeatExchanger)
    (re pr : ℝ) : Option ℝ :=
  if re < 2300 then some 7.54
  else
    (p.calculate_friction_factor re).bind fun f =>
      let denom := 1 + 12.7 * Real.sqrt (f / 8) * (pr ^ ((2 : ℝ)/3) - 1)
      if denom = 0 then none
      else some ((f / 8) * (re - 1000) * pr / denom)

/-- The `air_properties` dictionary passed to
`calculate_convection_coefficient`, as a fixed-shape record. -/
structure AirProps where
  density : ℝ
  viscosity : ℝ
  thermal_conductivity : ℝ
  prandtl : ℝ

/-- Embedding of `calculate_convection_coefficient`: Reynolds number,
then Nusselt number, then `h = Nu k / D_h`. -/
def PlateHeatExchanger.calculate_convection_coefficient (p : PlateHeatExchanger)
    (props : AirProps) (velocity : ℝ) : Option ℝ :=
  (p.calculate_reynolds_number velocity props.density props.viscosity).bind fun re =>
    (p.calculate_nusselt_number re props.prandtl).map fun nu =>
      nu * props.thermal_conductivity / p.hydraulic_diameter

/-- The turbulent Haaland correlation exactly as worded in the
specification, `(-1.8 log10((rr/3.7)^1.11 + 6.9/re))^-2` with
rr = roughness / hydraulic diameter, with `none` at the inputs where
the Python expression raises (log10 of a nonpositive number,
`0.0 ** -2`). -/
def haaland_friction (p : PlateHeatExchanger) (re : ℝ) : Option ℝ :=
  let rr := p.surface_roughness / p.hydraulic_diameter
  let arg := (rr / 3.7) ^ (1.11 : ℝ) + 6.9 / re
  if arg ≤ 0 then none
  else
    let b := -1.8 * Real.logb 10 arg
    if b = 0 then none else some (b ^ (-2 : ℤ))

/-! ## Helper lemmas -/

/-- Numeric bound: 3/10 < log10 3 (from 10^3 < 3^10). -/
theorem logb_ten_three_gt : (3:ℝ)/10 < Real.logb 10 3 := by
  rw [Real.lt_logb_iff_rpow_lt (by norm_num) (by norm_num)]
  have h10 : ((10:ℝ) ^ ((3:ℝ)/10)) ^ (10:ℕ) = 1000 := by
    rw [← Real.rpow_natCast ((10:ℝ) ^ ((3:ℝ)/10)) 10, ← Real.rpow_mul (by norm_num)]
    rw [show (3:ℝ)/10 * (10:ℕ) = ((3:ℕ):ℝ) by norm_num, Real.rpow_natCast]
    norm_num
  refine lt_of_pow_lt_pow_left₀ 10 (by norm_num) ?_
  rw [h10]
  norm_num

/-- Numeric bound: log10 3 < 1/2 (from 3^2 < 10). -/
theorem logb_ten_three_lt : Real.logb 10 3 < 1/2 := by
  rw [Real.logb_lt_iff_lt_rpow (by norm_num) (by norm_num)]
  have h2 : ((10:ℝ) ^ ((1:ℝ)/2)) ^ (2:ℕ) = 10 := by
    rw [← Real.rpow_natCast ((10:ℝ) ^ ((1:ℝ)/2)) 2, ← Real.rpow_mul (by norm_num)]
    rw [show (1:ℝ)/2 * (2:ℕ) = ((1:ℕ):ℝ) by norm_num, Real.rpow_natCast]
    norm_num
  refine lt_of_pow_lt_pow_left₀ 2 (Real.rpow_nonneg (by norm_num) _) ?_
  rw [h2]
  norm_num

/-- Splitting the base-10 logarithm of 3/1000. -/
theorem logb_ten_3e3 : Real.logb 10 (3/1000) = Real.logb 10 3 - 3 := by
  rw [Real.logb_div (by norm_num) (by norm_num)]
  rw [show (1000:ℝ) = 10 ^ (3:ℕ) by norm_num, Real.logb_pow,
    Real.logb_self_eq_one (by norm_num)]
  norm_num

/-- The Arden Buck saturation pressure is positive for every input. -/
theorem get_saturation_pressure_pa_pos (t : ℝ) :
    0 < get_saturation_pressure_pa t := by
  unfold get_saturation_pressure_pa
  split_ifs <;> positivity

/-- The saturation pressure at exactly 0 C comes from the second Buck
branch and is the bare coefficient 611.15 Pa. -/
theorem get_saturation_pressure_pa_zero : get_saturation_pressure_pa 0 = 611.15 := by
  unfold get_saturation_pressure_pa
  rw [if_neg (by norm_num : ¬(0:ℝ) > 0)]
  norm_num

/-- C7 counterexample: at 0 C, total pressure 300 Pa and relative
humidity 1 the pressure is below the vapor pressure (611.15 Pa), yet
the code silently returns a finite value instead of failing. -/
theorem humidity_rat_counterexample :
    (300:ℝ) ≤ 1 * get_saturation_pressure_pa 0 ∧
    get_humidity_rat 0 300 1 ≠ none := by
  constructor
  · rw [get_saturation_pressure_pa_zero]
    norm_num
  · intro h
    unfold get_humidity_rat at h
    rw [get_saturation_pressure_pa_zero] at h
    norm_num at h
    exact Option.noConfusion h

/-- C7 amended: the humidity ratio is
0.622 (rh p_sat) / (p - rh p_sat) whenever the denominator is nonzero;
it fails with a division error exactly when p = rh p_sat; and for
p strictly below rh p_sat (positive rh) it silently returns a negative
finite value rather than signalling a domain error. -/
theorem get_humidity_rat_amended (t p rh : ℝ) :
    (p - rh * get_saturation_pressure_pa t ≠ 0 →
      get_humidity_rat t p rh =
        some (0.622 * (rh * get_saturation_pressure_pa t) /
          (p - rh * get_saturation_pressure_pa t))) ∧
    (p - rh * get_saturation_pressure_pa t = 0 →
      get_humidity_rat t p rh = none) ∧
    (0 < rh → p < rh * get_saturation_pressure_pa t →
      ∃ w, get_humidity_rat t p rh = some w ∧ w < 0) := by
  have hreduce : get_humidity_rat t p rh =
      if p - rh * get_saturation_pressure_pa t = 0 then none
      else some (0.622 * (rh * get_saturation_pressure_pa t) /
        (p - rh * get_saturation_pressure_pa t)) := rfl
  refine ⟨fun h => ?_, fun h => ?_, fun h1 h2 => ?_⟩
  · rw [hreduce, if_neg h]
  · rw [hreduce, if_pos h]
  · have hne : p - rh * get_saturation_pressure_pa t ≠ 0 :=
      sub_ne_zero.mpr (ne_of_lt h2)
    refine ⟨_, by rw [hreduce, if_neg hne], ?_⟩
    apply div_neg_of_pos_of_neg
    · exact mul_pos (by norm_num)
        (mul_pos h1 (get_saturation_pressure_pa_pos t))
    · exact sub_neg.mpr h2

/-- C7 witness: the formula value at 0 C, 300 Pa, relative humidity 1. -/
theorem get_humidity_rat_amended_witness :
    get_humidity_rat 0 300 1 =
      some (0.622 * (1 * get_saturation_pressure_pa 0) /
        (300 - 1 * get_saturation_pressure_pa 0)) :=
  (get_humidity_rat_amended 0 300 1).1
    (by rw [get_saturation_pressure_pa_zero]; norm_num)

/-- Evaluation helper: with zero roughness (other geometry at source
defaults) the friction factor at re = 2300 is the turbulent value
`(-1.8 log10(3/1000))^-2`. -/
theorem cff_zero_roughness_at_2300 :
    PlateHeatExchanger.calculate_friction_factor
      ⟨1.4, 1.4, 0.015, 50, 0.0005, 237.0, 0⟩ 2300 =
      some ((-1.8 * Real.logb 10 (3/1000)) ^ (-2 : ℤ)) := by
  have hbne : -1.8 * Real.logb 10 (3/1000) ≠ 0 := by
    have h1 := logb_ten_three_lt
    rw [logb_ten_3e3]
    nlinarith
  unfold PlateHeatExchanger.calculate_friction_factor
    PlateHeatExchanger.hydraulic_diameter
  rw [if_neg (by norm_num : ¬(2300:ℝ) < 2300)]
  simp only
  rw [show ((⟨1.4, 1.4, 0.015, 50, 0.0005, 237.0, 0⟩ :
      PlateHeatExchanger).surface_roughness /
      (2 * (⟨1.4, 1.4, 0.015, 50, 0.0005, 237.0, 0⟩ :
      PlateHeatExchanger).gap_between_plates) / 3.7) = (0:ℝ) from by norm_num]
  rw [Real.zero_rpow (by norm_num : (1.11:ℝ) ≠ 0)]
  rw [show (0:ℝ) + 6.9 / 2300 = 3/1000 from by norm_num]
  rw [if_neg (by norm_num : ¬(3:ℝ)/1000 ≤ 0), if_neg hbne]

/-- C1 counterexample: at exactly re = 2300 the code takes the
turbulent branch; with zero roughness its value differs from the
laminar 96/2300 that the claim asserts for this boundary. -/
theorem friction_factor_boundary_counterexample :
    PlateHeatExchanger.calculate_friction_factor
      ⟨1.4, 1.4, 0.015, 50, 0.0005, 237.0, 0⟩ 2300 ≠ some (96 / 2300) := by
  rw [cff_zero_roughness_at_2300]
  intro hEq
  injection hEq with hEq
  rw [logb_ten_3e3] at hEq
  have hb1 := logb_ten_three_gt
  have hb2 := logb_ten_three_lt
  set L := Real.logb 10 3 with hLdef
  set b := -1.8 * (L - 3) with hbdef
  have hbpos : 0 < b := by rw [hbdef]; nlinarith
  have hblt : b < 4.86 := by rw [hbdef]; nlinarith
  have hsq : b^2 < 2300/96 := by nlinarith
  have hz : b ^ (-2:ℤ) = (b^2)⁻¹ := by
    rw [zpow_neg, show ((2:ℤ)) = ((2:ℕ):ℤ) from rfl, zpow_natCast]
  rw [hz] at hEq
  have hb2pos : (0:ℝ) < b^2 := by positivity
  have hEq2 : b^2 = 2300/96 := by
    field_simp at hEq
    linarith
  linarith

/-- C1 amended: `calculate_friction_factor` returns the laminar 96/re
for re < 2300 (raising at re = 0) and the Haaland correlation for
re >= 2300; at exactly re = 2300 the TURBULENT branch is used (the
comparator is strict, so the boundary lies on the turbulent side). -/
theorem friction_factor_amended (p : PlateHeatExchanger) (re : ℝ) :
    (re < 2300 → re ≠ 0 → p.calculate_friction_factor re = some (96 / re)) ∧
    (2300 ≤ re → p.calculate_friction_factor re = haaland_friction p re) ∧
    p.calculate_friction_factor 2300 = haaland_friction p 2300 := by
  refine ⟨fun h h0 => ?_, fun h => ?_, ?_⟩
  · unfold PlateHeatExchanger.calculate_friction_factor
    rw [if_pos h, if_neg h0]
    norm_num
  · unfold PlateHeatExchanger.calculate_friction_factor haaland_friction
    rw [if_neg (not_lt.mpr h)]
  · unfold PlateHeatExchanger.calculate_friction_factor haaland_friction
    rw [if_neg (by norm_num : ¬(2300:ℝ) < 2300)]

/-- C1 witness: the laminar branch at re = 100 on the default geometry. -/
theorem friction_factor_amended_witness :
    PlateHeatExchanger.calculate_friction_factor defaultPHE 100 = some (96 / 100) :=
  (friction_factor_amended defaultPHE 100).1 (by norm_num) (by norm_num)

/-- C2: for every NTU and Cr the counter-flow effectiveness of the code
equals the specification formula: 1 - exp(-NTU) when Cr = 0, otherwise
(1-exp(-NTU(1-Cr)))/(1 - Cr exp(-NTU(1-Cr))) with 0 substituted at a
zero denominator, the result clamped to [0,1]. -/
theorem epsilon_counterflow_matches_spec (ntu cr : ℝ) :
    epsilon_counterflow ntu cr = epsilon_counterflow_spec ntu cr := by
  unfold epsilon_counterflow epsilon_counterflow_spec
  simp only [neg_mul]
  split_ifs with h1 h2 h3 <;> simp_all

/-- C3: for every NTU and Cr the cross-flow effectiveness of the code
equals the specification formula: Cr = 0 is first replaced by 1e-9, then
1 - exp((1/Cr) NTU^0.22 (exp(-Cr NTU^0.78) - 1)) is evaluated and the
result is clamped to [0,1]. -/
theorem epsilon_crossflow_matches_spec (ntu cr : ℝ) :
    epsilon_crossflow ntu cr = epsilon_crossflow_spec ntu cr := by
  unfold epsilon_crossflow epsilon_crossflow_spec
  simp only [neg_mul, mul_assoc]

/-- C4: for all NTU ≥ 0 and Cr in [0,1], both effectiveness branches
produce a value in [0,1]. -/
theorem effectiveness_in_unit_interval (ntu cr : ℝ)
    (h1 : 0 ≤ ntu) (h2 : 0 ≤ cr) (h3 : cr ≤ 1) :
    (0 ≤ epsilon_counterflow ntu cr ∧ epsilon_counterflow ntu cr ≤ 1) ∧
    (0 ≤ epsilon_crossflow ntu cr ∧ epsilon_crossflow ntu cr ≤ 1) := by
  unfold epsilon_counterflow epsilon_crossflow
  exact ⟨⟨le_max_left _ _, max_le zero_le_one (min_le_left _ _)⟩,
    ⟨le_max_left _ _, max_le zero_le_one (min_le_left _ _)⟩⟩

/-- C4 witness: the bounds at the concrete point NTU = 2, Cr = 1/2. -/
theorem effectiveness_in_unit_interval_witness :
    (0 ≤ epsilon_counterflow 2 (1/2) ∧ epsilon_counterflow 2 (1/2) ≤ 1) ∧
    (0 ≤ epsilon_crossflow 2 (1/2) ∧ epsilon_crossflow 2 (1/2) ≤ 1) :=
  effectiveness_in_unit_interval 2 (1/2) (by norm_num) (by norm_num) (by norm_num)

/-- C5: whenever `epsilon_ntu` produces a result and both capacity rates
are nonzero, the result satisfies the energy balance on both sides:
Q = C_hot (T_hot_in - T_hot_out) = C_cold (T_cold_out - T_cold_in). -/
theorem energy_balance (th tc ch cc ua : ℝ) (cfg : String) (r : ThermalResult)
    (hh : ch ≠ 0) (hc : cc ≠ 0)
    (hr : epsilon_ntu th tc ch cc ua cfg = some r) :
    r.total_heat_transfer_w = ch * (th - r.temp_hot_out_c) ∧
    r.total_heat_transfer_w = cc * (r.temp_cold_out_c - tc) := by
  unfold epsilon_ntu at hr
  by_cases h1 : cfg = "counter-flow"
  · simp only [h1, eq_self_iff_true, ite_true, Option.map_some'] at hr
    injection hr with hr
    subst hr
    constructor
    · show _ = ch * (th - (th - _))
      rw [if_pos hh, sub_sub_cancel]
      field_simp
    · show _ = cc * (tc + _ - tc)
      rw [if_pos hc, add_sub_cancel_left]
      field_simp
  · by_cases h2 : cfg = "cross-flow"
    · simp only [h2, show ¬(("cross-flow" : String) = "counter-flow") from by decide,
        eq_self_iff_true, ite_true, ite_false, if_false, Option.map_some'] at hr
      injection hr with hr
      subst hr
      constructor
      · show _ = ch * (th - (th - _))
        rw [if_pos hh, sub_sub_cancel]
        field_simp
      · show _ = cc * (tc + _ - tc)
        rw [if_pos hc, add_sub_cancel_left]
        field_simp
    · simp only [h1, h2, ite_false, if_false, Option.map_none'] at hr
      exact Option.noConfusion hr

/-- C5 witness: at hot 30 C / cold 10 C, rates 2 and 3 W/K, UA = 0,
counter-flow, the produced record satisfies both energy balances. -/
theorem energy_balance_witness :
    ((⟨0, 0, 0, 30, 10, 0, 0, 2/3⟩ : ThermalResult)).total_heat_transfer_w =
      2 * (30 - ((⟨0, 0, 0, 30, 10, 0, 0, 2/3⟩ : ThermalResult)).temp_hot_out_c) ∧
    ((⟨0, 0, 0, 30, 10, 0, 0, 2/3⟩ : ThermalResult)).total_heat_transfer_w =
      3 * (((⟨0, 0, 0, 30, 10, 0, 0, 2/3⟩ : ThermalResult)).temp_cold_out_c - 10) :=
  energy_balance 30 10 2 3 0 "counter-flow" ⟨0, 0, 0, 30, 10, 0, 0, 2/3⟩
    (by norm_num) (by norm_num)
    (by simp [epsilon_ntu, epsilon_counterflow]; norm_num)

/-- C6: any flow-configuration string other than `counter-flow` and
`cross-flow` makes `epsilon_ntu` signal an error (modelled `none`),
producing no partial result record. -/
theorem invalid_configuration (th tc ch cc ua : ℝ) (cfg : String)
    (h1 : cfg ≠ "counter-flow") (h2 : cfg ≠ "cross-flow") :
    epsilon_ntu th tc ch cc ua cfg = none := by
  unfold epsilon_ntu
  simp [h1, h2]

/-- C6 witness: the configuration string `parallel-flow` is rejected. -/
theorem invalid_configuration_witness :
    epsilon_ntu 30 10 4500 4500 500 "parallel-flow" = none :=
  invalid_configuration 30 10 4500 4500 500 "parallel-flow"
    (by decide) (by decide)

/-- C8: the guarded singular inputs do not raise: with a valid flow
configuration a result record is always produced, and Cmax = 0 gives
Cr = 0, Cmin = 0 gives NTU = 0, a zero capacity rate gives a zero
outlet-temperature offset on its side, equal inlet temperatures give
zero temperature-effectiveness ratios; and the Prandtl number falls
back to the constant 0.7 whenever the thermal conductivity is
nonpositive. -/
theorem guarded_singularities (th tc ch cc ua : ℝ) (cfg : String) (m : MoistAir)
    (hcfg : cfg = "counter-flow" ∨ cfg = "cross-flow")
    (hk : m.thermal_conductivity ≤ 0) :
    (∃ r : ThermalResult, epsilon_ntu th tc ch cc ua cfg = some r ∧
      (max ch cc = 0 → r.heat_capacity_rate_rat = 0) ∧
      (min ch cc = 0 → r.ntu = 0) ∧
      (ch = 0 → r.temp_hot_out_c = th) ∧
      (cc = 0 → r.temp_cold_out_c = tc) ∧
      (th = tc → r.temp_effectiveness_hot_side = 0 ∧
        r.temp_effectiveness_cold_side = 0)) ∧
    m.prandtl_number = 0.7 := by
  constructor
  · unfold epsilon_ntu
    rcases hcfg with h | h <;> subst h <;>
      simp only [eq_self_iff_true, ite_true, ite_false,
        show ¬(("cross-flow" : String) = "counter-flow") from by decide,
        if_false, Option.map_some'] <;>
      refine ⟨_, rfl, ?_, ?_, ?_, ?_, ?_⟩ <;> intro h <;>
      simp [h]
  · unfold MoistAir.prandtl_number
    rw [if_neg (not_lt.mpr hk)]

/-- C8 witness: both capacity rates zero, equal inlet temperatures,
counter-flow, and a (nonphysical) moist-air state cold enough to make
the fitted conductivity nonpositive. -/
theorem guarded_singularities_witness :
    (∃ r : ThermalResult, epsilon_ntu 5 5 0 0 7 "counter-flow" = some r ∧
      (max (0:ℝ) 0 = 0 → r.heat_capacity_rate_rat = 0) ∧
      (min (0:ℝ) 0 = 0 → r.ntu = 0) ∧
      ((0:ℝ) = 0 → r.temp_hot_out_c = 5) ∧
      ((0:ℝ) = 0 → r.temp_cold_out_c = 5) ∧
      ((5:ℝ) = 5 → r.temp_effectiveness_hot_side = 0 ∧
        r.temp_effectiveness_cold_side = 0)) ∧
    (MoistAir.mk (-400) 0 101325).prandtl_number = 0.7 :=
  guarded_singularities 5 5 0 0 7 "counter-flow" ⟨-400, 0, 101325⟩
    (Or.inl rfl)
    (by norm_num [MoistAir.thermal_conductivity, get_air_thermal_conductivity])

/-- C9: swapping the hot and cold capacity rates leaves the capacity
rate ratio, the NTU, the effectiveness and the total heat transfer of
the produced records unchanged (they depend on the two rates only
through min and max). -/
theorem swap_capacity_rates (th tc ch cc ua : ℝ) (cfg : String)
    (r1 r2 : ThermalResult)
    (hr1 : epsilon_ntu th tc ch cc ua cfg = some r1)
    (hr2 : epsilon_ntu th tc cc ch ua cfg = some r2) :
    r1.heat_capacity_rate_rat = r2.heat_capacity_rate_rat ∧
    r1.ntu = r2.ntu ∧
    r1.effectiveness_epsilon = r2.effectiveness_epsilon ∧
    r1.total_heat_transfer_w = r2.total_heat_transfer_w := by
  unfold epsilon_ntu at hr1 hr2
  by_cases h1 : cfg = "counter-flow"
  · simp only [h1, eq_self_iff_true, ite_true, Option.map_some'] at hr1 hr2
    injection hr1 with hr1
    injection hr2 with hr2
    subst hr1
    subst hr2
    refine ⟨?_, ?_, ?_, ?_⟩ <;> simp only [min_comm cc ch, max_comm cc ch]
  · by_cases h2 : cfg = "cross-flow"
    · simp only [h2, show ¬(("cross-flow" : String) = "counter-flow") from by decide,
        eq_self_iff_true, ite_true, ite_false, if_false, Option.map_some'] at hr1 hr2
      injection hr1 with hr1
      injection hr2 with hr2
      subst hr1
      subst hr2
      refine ⟨?_, ?_, ?_, ?_⟩ <;> simp only [min_comm cc ch, max_comm cc ch]
    · simp only [h1, h2, ite_false, if_false, Option.map_none'] at hr1
      exact Option.noConfusion hr1

/-- C9 witness: rates 2 and 3 W/K with UA = 0 in counter-flow; both
orders produce records agreeing on the four quantities. -/
theorem swap_capacity_rates_witness :
    ((⟨0, 0, 0, 30, 10, 0, 0, 2/3⟩ : ThermalResult)).heat_capacity_rate_rat =
      ((⟨0, 0, 0, 30, 10, 0, 0, 2/3⟩ : ThermalResult)).heat_capacity_rate_rat ∧
    ((⟨0, 0, 0, 30, 10, 0, 0, 2/3⟩ : ThermalResult)).ntu =
      ((⟨0, 0, 0, 30, 10, 0, 0, 2/3⟩ : ThermalResult)).ntu ∧
    ((⟨0, 0, 0, 30, 10, 0, 0, 2/3⟩ : ThermalResult)).effectiveness_epsilon =
      ((⟨0, 0, 0, 30, 10, 0, 0, 2/3⟩ : ThermalResult)).effectiveness_epsilon ∧
    ((⟨0, 0, 0, 30, 10, 0, 0, 2/3⟩ : ThermalResult)).total_heat_transfer_w =
      ((⟨0, 0, 0, 30, 10, 0, 0, 2/3⟩ : ThermalResult)).total_heat_transfer_w :=
  swap_capacity_rates 30 10 2 3 0 "counter-flow"
    ⟨0, 0, 0, 30, 10, 0, 0, 2/3⟩ ⟨0, 0, 0, 30, 10, 0, 0, 2/3⟩
    (by simp [epsilon_ntu, epsilon_counterflow]; norm_num)
    (by simp [epsilon_ntu, epsilon_counterflow]; norm_num)

/-- C10 counterexample: at zero velocity (viscosity 1, conductivity 1,
Prandtl 0.7, default geometry) the convection coefficient does NOT
fail with a division error; it returns a value. -/
theorem zero_velocity_counterexample :
    PlateHeatExchanger.calculate_convection_coefficient defaultPHE
      ⟨1, 1, 1, 0.7⟩ 0 ≠ none := by
  intro h
  unfold PlateHeatExchanger.calculate_convection_coefficient
    PlateHeatExchanger.calculate_reynolds_number
    PlateHeatExchanger.calculate_nusselt_number at h
  norm_num at h
  exact Option.noConfusion h

/-- C10 amended: at zero velocity the Reynolds number is 0 without
error (for nonzero viscosity), and the friction factor applied to
re = 0 does raise on the unguarded 96/re; but the Nusselt correlation
returns the laminar constant 7.54 without consulting the friction
factor, so the convection coefficient at zero velocity succeeds and
returns 7.54 k / D_h rather than failing. -/
theorem zero_velocity_amended (p : PlateHeatExchanger) (props : AirProps)
    (hmu : props.viscosity ≠ 0) :
    p.calculate_reynolds_number 0 props.density props.viscosity = some 0 ∧
    p.calculate_friction_factor 0 = none ∧
    p.calculate_convection_coefficient props 0 =
      some (7.54 * props.thermal_conductivity / p.hydraulic_diameter) := by
  have hre : p.calculate_reynolds_number 0 props.density props.viscosity = some 0 := by
    unfold PlateHeatExchanger.calculate_reynolds_number
    rw [if_neg hmu]
    norm_num
  have hnu : p.calculate_nusselt_number 0 props.prandtl = some 7.54 := by
    unfold PlateHeatExchanger.calculate_nusselt_number
    rw [if_pos (by norm_num : (0:ℝ) < 2300)]
  refine ⟨hre, ?_, ?_⟩
  · unfold PlateHeatExchanger.calculate_friction_factor
    rw [if_pos (by norm_num : (0:ℝ) < 2300), if_pos rfl]
  · unfold PlateHeatExchanger.calculate_convection_coefficient
    rw [hre, Option.some_bind, hnu, Option.map_some']

/-- C10 witness: the amended behavior at the concrete property set
(density 1, viscosity 1, conductivity 1, Prandtl 0.7) on the default
geometry. -/
theorem zero_velocity_amended_witness :
    defaultPHE.calculate_reynolds_number 0 1 1 = some 0 ∧
    defaultPHE.calculate_friction_factor 0 = none ∧
    defaultPHE.calculate_convection_coefficient ⟨1, 1, 1, 0.7⟩ 0 =
      some (7.54 * 1 / defaultPHE.hydraulic_diameter) :=
  zero_velocity_amended defaultPHE ⟨1, 1, 1, 0.7⟩ (by norm_num)

end PHX
